import Mathlib

/-!
# Shallow embedding of the Synacor VM interpreter (`src/cpu.rs`, `src/mem.rs`, `src/vm.rs`)

Machine words (`u16` in the source) are modelled as `Nat`; wherever the source
performs wrapping arithmetic (`wrapping_add`, `wrapping_mul`) the embedding
takes the result modulo `2^16` explicitly.  `u16::wrapping_rem` panics on a
zero divisor; a host panic is modelled by the `Option` layer of `RRes` being
`none`.  Fallible operations mirror the source's `Result<_, CPUError>` with
`Except CPUError _`.  The `Rc<RefCell<Memory>>`-backed word array is modelled
as its lookup function `Nat → Nat`; every access in the source is guarded by
an address-range check, so only indices `0..0x8000` are ever consulted.
The `Vec` stack is modelled as a list whose head is the top of the stack.
The bytes printed by the `out` opcode are collected in an `output` field.
-/

namespace Synacor

/-- `MAX_ADDRESS` from `mem.rs`. -/
def MAX_ADDRESS : Nat := 0x8000

/-- `MAX_REGISTERS` from `cpu.rs`. -/
def MAX_REGISTERS : Nat := 8

/-- `CPUError` from `cpu.rs`. -/
inductive CPUError where
  | OverflowAddress (addr : Nat)
  | OverflowRegister (n : Nat)
  | PopFromEmptyStack
  | UnknownOpCode (opcode : Nat) (address : Nat)
deriving DecidableEq, Repr

/-- `MemoryError` from `mem.rs`. -/
inductive MemoryError where
  | DataIsTooLarge (len : Nat)
  | OverflowAddress (addr : Nat)
  | OverflowRegister (n : Nat)
deriving DecidableEq, Repr

/-- `ExecutionResult` from `cpu.rs`. -/
inductive ExecutionResult where
  | Stop
  | Jump (address : Nat)
  | Next (size : Nat)
deriving DecidableEq, Repr

/-- The CPU state: `struct CPU` of `cpu.rs` together with the `Memory` word
array it holds behind `Rc<RefCell<…>>`, plus the stream of bytes printed by
the `out` opcode. -/
structure CPU where
  memory : Nat → Nat
  registers : Nat → Nat
  stack : List Nat
  currentAddress : Nat
  output : List Nat

/-- `Memory::default()`: the word array is zero-initialised. -/
def defaultMemory : Nat → Nat := fun _ => 0

/-- `Memory::load_data`: replaces the prefix of the word array with `data`;
fails when the data is longer than the 32768-cell array. -/
def loadData (m : Nat → Nat) (data : List Nat) : Except MemoryError (Nat → Nat) :=
  if data.length > MAX_ADDRESS then
    .error (.DataIsTooLarge data.length)
  else
    .ok (fun i => if i < data.length then data.getD i 0 else m i)

/-- `Memory::read_memory`: `Some` cell for `0..=0x7FFF`, `None` otherwise. -/
def readMemory (m : Nat → Nat) (address : Nat) : Option Nat :=
  if address ≤ 0x7FFF then some (m address) else none

/-- `Memory::write_memory`: replaces the cell for `0..=0x7FFF` (the source's
extra guard `address < MAX_ADDRESS` is implied by the range pattern) and
returns the prior value, else fails. -/
def writeMemory (m : Nat → Nat) (address value : Nat) :
    Except MemoryError (Nat × (Nat → Nat)) :=
  if address ≤ 0x7FFF then
    .ok (m address, fun i => if i = address then value else m i)
  else
    .error (.OverflowAddress address)

/-- `get_registry_from_address` from `cpu.rs`: `checked_sub(0x8000)` followed
by the range check `0..8`. -/
def getRegistryFromAddress (address : Nat) : Option Nat :=
  if 0x8000 ≤ address ∧ address - 0x8000 < MAX_REGISTERS then
    some (address - 0x8000)
  else
    none

/-- `CPU::new`: zero registers, empty stack, PC 0; no output yet. -/
def newCPU (m : Nat → Nat) : CPU :=
  { memory := m, registers := fun _ => 0, stack := [], currentAddress := 0, output := [] }

/-- `VirtualMachine::load_binary` composed with `VirtualMachine::default()`:
boot a machine from a program image. -/
def loadBinary (data : List Nat) : Except MemoryError CPU :=
  (loadData defaultMemory data).map newCPU

/-- `CPU::read_register`. -/
def readRegister (s : CPU) (number : Nat) : Option Nat :=
  if number ≤ 7 then some (s.registers number) else none

/-- `CPU::write_register`: returns the old value and the updated state. -/
def writeRegister (s : CPU) (number value : Nat) : Except CPUError (Nat × CPU) :=
  if number ≤ 7 then
    .ok (s.registers number,
         { s with registers := fun i => if i = number then value else s.registers i })
  else
    .error (.OverflowRegister number)

/-- `CPU::get_value_from_address`: memory read for `0..=0x7FFF`, register read
for `0x8000..=0x8007`, `OverflowAddress` otherwise. -/
def getValueFromAddress (s : CPU) (address : Nat) : Except CPUError Nat :=
  if address ≤ 0x7FFF then
    match readMemory s.memory address with
    | some v => .ok v
    | none => .error (.OverflowAddress address)
  else if address ≤ 0x8007 then
    match getRegistryFromAddress address with
    | some regNum =>
        match readRegister s regNum with
        | some v => .ok v
        | none => .error (.OverflowRegister regNum)
    | none => .error (.OverflowAddress address)
  else
    .error (.OverflowAddress address)

/-- `CPU::set_value_in_address`: memory write for `0..=0x7FFF` (any memory
error is mapped to `CPUError::OverflowAddress`), register write for
`0x8000..=0x8007`, `OverflowAddress` otherwise. -/
def setValueInAddress (s : CPU) (address value : Nat) : Except CPUError (Nat × CPU) :=
  if address ≤ 0x7FFF then
    match writeMemory s.memory address value with
    | .ok (old, m) => .ok (old, { s with memory := m })
    | .error _ => .error (.OverflowAddress address)
  else if address ≤ 0x8007 then
    match getRegistryFromAddress address with
    | some regNum => writeRegister s regNum value
    | none => .error (.OverflowAddress address)
  else
    .error (.OverflowAddress address)

/-- `CPU::from_raw_to_u16` (operand resolution): literals `0..=0x7FFF` return
themselves, `0x8000..=0x8007` read the referenced register, larger raws fail. -/
def fromRawToU16 (s : CPU) (raw : Nat) : Except CPUError Nat :=
  if raw ≤ 0x7FFF then
    .ok raw
  else if raw ≤ 0x8007 then
    match getRegistryFromAddress raw with
    | some regNum =>
        match readRegister s regNum with
        | some v => .ok v
        | none => .error (.OverflowRegister regNum)
    | none => .error (.OverflowAddress raw)
  else
    .error (.OverflowAddress raw)

/-- Result of a fallible step of Rust code that may also panic: `none` models
a host panic (only `u16::wrapping_rem` with divisor 0 can panic here). -/
abbrev RRes (α : Type) := Option (Except CPUError α)

/-- `CPU::halt` (opcode 0). -/
def halt (s : CPU) : Except CPUError (ExecutionResult × CPU) :=
  .ok (.Stop, s)

/-- `CPU::set` (opcode 1): resolve `b`, store it at raw destination `a`. -/
def set (s : CPU) (rawA rawB : Nat) : Except CPUError (ExecutionResult × CPU) :=
  (fromRawToU16 s rawB).bind fun b =>
    (setValueInAddress s rawA b).bind fun p =>
      .ok (.Next 3, p.2)

/-- `CPU::push` (opcode 2): resolve `a`, push it. -/
def push (s : CPU) (rawA : Nat) : Except CPUError (ExecutionResult × CPU) :=
  (fromRawToU16 s rawA).bind fun a =>
    .ok (.Next 2, { s with stack := a :: s.stack })

/-- `CPU::pop` (opcode 3): pop the stack into raw destination `a`; an empty
stack is the `PopFromEmptyStack` error. -/
def pop (s : CPU) (rawA : Nat) : Except CPUError (ExecutionResult × CPU) :=
  match s.stack with
  | value :: rest =>
      (setValueInAddress { s with stack := rest } rawA value).bind fun p =>
        .ok (.Next 2, p.2)
  | [] => .error .PopFromEmptyStack

/-- `CPU::eq` (opcode 4). -/
def eq (s : CPU) (rawA rawB rawC : Nat) : Except CPUError (ExecutionResult × CPU) :=
  (fromRawToU16 s rawB).bind fun b =>
    (fromRawToU16 s rawC).bind fun c =>
      (setValueInAddress s rawA (if b = c then 1 else 0)).bind fun p =>
        .ok (.Next 4, p.2)

/-- `CPU::gt` (opcode 5). -/
def gt (s : CPU) (rawA rawB rawC : Nat) : Except CPUError (ExecutionResult × CPU) :=
  (fromRawToU16 s rawB).bind fun b =>
    (fromRawToU16 s rawC).bind fun c =>
      (setValueInAddress s rawA (if b > c then 1 else 0)).bind fun p =>
        .ok (.Next 4, p.2)

/-- `CPU::jmp` (opcode 6). -/
def jmp (s : CPU) (rawA : Nat) : Except CPUError (ExecutionResult × CPU) :=
  (fromRawToU16 s rawA).bind fun a =>
    .ok (.Jump a, s)

/-- `CPU::jt` (opcode 7): both operands are resolved, then the branch is
decided. -/
def jt (s : CPU) (rawA rawB : Nat) : Except CPUError (ExecutionResult × CPU) :=
  (fromRawToU16 s rawA).bind fun a =>
    (fromRawToU16 s rawB).bind fun b =>
      .ok (if a ≠ 0 then (.Jump b, s) else (.Next 3, s))

/-- `CPU::jf` (opcode 8): both operands are resolved, then the branch is
decided. -/
def jf (s : CPU) (rawA rawB : Nat) : Except CPUError (ExecutionResult × CPU) :=
  (fromRawToU16 s rawA).bind fun a =>
    (fromRawToU16 s rawB).bind fun b =>
      .ok (if a = 0 then (.Jump b, s) else (.Next 3, s))

/-- `CPU::add` (opcode 9): `b.wrapping_add(c) & 0x7FFF` on resolved operands. -/
def add (s : CPU) (rawA rawB rawC : Nat) : Except CPUError (ExecutionResult × CPU) :=
  (fromRawToU16 s rawB).bind fun b =>
    (fromRawToU16 s rawC).bind fun c =>
      (setValueInAddress s rawA (((b + c) % 65536) &&& 0x7FFF)).bind fun p =>
        .ok (.Next 4, p.2)

/-- `CPU::mult` (opcode 10): `b.wrapping_mul(c) & 0x7FFF` on resolved
operands. -/
def mult (s : CPU) (rawA rawB rawC : Nat) : Except CPUError (ExecutionResult × CPU) :=
  (fromRawToU16 s rawB).bind fun b =>
    (fromRawToU16 s rawC).bind fun c =>
      (setValueInAddress s rawA (((b * c) % 65536) &&& 0x7FFF)).bind fun p =>
        .ok (.Next 4, p.2)

/-- `CPU::modulo` (opcode 11): NOTE — the source takes `b` and `c` as raw
operand words and never calls `from_raw_to_u16` on them; it computes
`b.wrapping_rem(c)` directly, which panics (modelled as `none`) when `c = 0`. -/
def modulo (s : CPU) (rawA b c : Nat) : RRes (ExecutionResult × CPU) :=
  if c = 0 then
    none
  else
    some ((setValueInAddress s rawA (b % c)).bind fun p =>
      .ok (.Next 4, p.2))

/-- `CPU::and` (opcode 12). -/
def and (s : CPU) (rawA rawB rawC : Nat) : Except CPUError (ExecutionResult × CPU) :=
  (fromRawToU16 s rawB).bind fun b =>
    (fromRawToU16 s rawC).bind fun c =>
      (setValueInAddress s rawA (b &&& c)).bind fun p =>
        .ok (.Next 4, p.2)

/-- `CPU::or` (opcode 13). -/
def or (s : CPU) (rawA rawB rawC : Nat) : Except CPUError (ExecutionResult × CPU) :=
  (fromRawToU16 s rawB).bind fun b =>
    (fromRawToU16 s rawC).bind fun c =>
      (setValueInAddress s rawA (b ||| c)).bind fun p =>
        .ok (.Next 4, p.2)

/-- `CPU::not` (opcode 14): `!b & 0x7FFF`; `!` on a `u16` value `b ≤ 0xFFFF`
is `0xFFFF - b`. -/
def not (s : CPU) (rawA rawB : Nat) : Except CPUError (ExecutionResult × CPU) :=
  (fromRawToU16 s rawB).bind fun b =>
    (setValueInAddress s rawA ((0xFFFF - b) &&& 0x7FFF)).bind fun p =>
      .ok (.Next 3, p.2)

/-- `CPU::rmem` (opcode 15). -/
def rmem (s : CPU) (rawA rawB : Nat) : Except CPUError (ExecutionResult × CPU) :=
  (fromRawToU16 s rawB).bind fun b =>
    (getValueFromAddress s b).bind fun value =>
      (setValueInAddress s rawA value).bind fun p =>
        .ok (.Next 3, p.2)

/-- `CPU::wmem` (opcode 16). -/
def wmem (s : CPU) (rawA rawB : Nat) : Except CPUError (ExecutionResult × CPU) :=
  (fromRawToU16 s rawA).bind fun a =>
    (fromRawToU16 s rawB).bind fun b =>
      (setValueInAddress s a b).bind fun p =>
        .ok (.Next 3, p.2)

/-- `CPU::call` (opcode 17): push the return address `PC + 2`, jump to the
resolved target.  (`PC ≤ 0x8007` whenever the opcode fetch succeeded, so the
`u16` addition cannot wrap.) -/
def call (s : CPU) (rawA : Nat) : Except CPUError (ExecutionResult × CPU) :=
  (fromRawToU16 s rawA).bind fun a =>
    .ok (.Jump a, { s with stack := (s.currentAddress + 2) :: s.stack })

/-- `CPU::ret` (opcode 18): pop the return address and jump to it; an empty
stack stops execution (no error). -/
def ret (s : CPU) : Except CPUError (ExecutionResult × CPU) :=
  match s.stack with
  | a :: rest => .ok (.Jump a, { s with stack := rest })
  | [] => .ok (.Stop, s)

/-- `CPU::out` (opcode 19): NOTE — the source receives the raw operand word
and prints `(a as u8) as char` without calling `from_raw_to_u16`; the printed
byte is the low byte `a % 256` of the raw word. -/
def out (s : CPU) (a : Nat) : Except CPUError (ExecutionResult × CPU) :=
  .ok (.Next 2, { s with output := s.output ++ [a % 256] })

/-- `CPU::noop` (opcode 21). -/
def noop (s : CPU) : Except CPUError (ExecutionResult × CPU) :=
  .ok (.Next 1, s)

/-- The `match op_code` dispatch block of `CPU::execute`: `a`, `b`, `c` are
the three optimistically fetched operand results, and each arm applies `?`
only to the operands it consumes, in left-to-right order. -/
def dispatch (s : CPU) (opCode : Nat) (a b c : Except CPUError Nat) :
    RRes (ExecutionResult × CPU) :=
  match opCode with
  | 0 => some (halt s)
  | 1 => some (a.bind fun a => b.bind fun b => set s a b)
  | 2 => some (a.bind fun a => push s a)
  | 3 => some (a.bind fun a => pop s a)
  | 4 => some (a.bind fun a => b.bind fun b => c.bind fun c => eq s a b c)
  | 5 => some (a.bind fun a => b.bind fun b => c.bind fun c => gt s a b c)
  | 6 => some (a.bind fun a => jmp s a)
  | 7 => some (a.bind fun a => b.bind fun b => jt s a b)
  | 8 => some (a.bind fun a => b.bind fun b => jf s a b)
  | 9 => some (a.bind fun a => b.bind fun b => c.bind fun c => add s a b c)
  | 10 => some (a.bind fun a => b.bind fun b => c.bind fun c => mult s a b c)
  | 11 =>
      match a, b, c with
      | .ok a, .ok b, .ok c => modulo s a b c
      | .error e, _, _ => some (.error e)
      | _, .error e, _ => some (.error e)
      | _, _, .error e => some (.error e)
  | 12 => some (a.bind fun a => b.bind fun b => c.bind fun c => and s a b c)
  | 13 => some (a.bind fun a => b.bind fun b => c.bind fun c => or s a b c)
  | 14 => some (a.bind fun a => b.bind fun b => not s a b)
  | 15 => some (a.bind fun a => b.bind fun b => rmem s a b)
  | 16 => some (a.bind fun a => b.bind fun b => wmem s a b)
  | 17 => some (a.bind fun a => call s a)
  | 18 => some (ret s)
  | 19 => some (a.bind fun a => out s a)
  | 21 => some (noop s)
  | _ => some (.error (.UnknownOpCode opCode s.currentAddress))

/-- The tail `match execution_result` of `CPU::execute`: `Stop` returns
`Ok(true)`, `Jump` sets the PC, `Next` advances it.  (`PC ≤ 0x8007` whenever
the opcode fetch succeeded, so `current_address += size` cannot wrap.) -/
def applyResult (r : RRes (ExecutionResult × CPU)) : RRes (Bool × CPU) :=
  match r with
  | none => none
  | some (.error e) => some (.error e)
  | some (.ok (.Stop, s)) => some (.ok (true, s))
  | some (.ok (.Jump address, s)) =>
      some (.ok (false, { s with currentAddress := address }))
  | some (.ok (.Next size, s)) =>
      some (.ok (false, { s with currentAddress := s.currentAddress + size }))

/-- `CPU::execute`: fetch the opcode (a fetch failure here aborts the step),
optimistically fetch up to three trailing operands, dispatch, then apply the
execution result.  Returns `true` exactly when the machine halted. -/
def execute (s : CPU) : RRes (Bool × CPU) :=
  match getValueFromAddress s s.currentAddress with
  | .error e => some (.error e)
  | .ok opCode =>
      applyResult (dispatch s opCode
        (getValueFromAddress s (s.currentAddress + 1))
        (getValueFromAddress s (s.currentAddress + 2))
        (getValueFromAddress s (s.currentAddress + 3)))

/-- `n` iterations of the `VirtualMachine::run` loop: step until halt, error,
or the iteration bound runs out. -/
def runSteps : Nat → CPU → RRes (Bool × CPU)
  | 0, s => some (.ok (false, s))
  | n + 1, s =>
      match execute s with
      | none => none
      | some (.error e) => some (.error e)
      | some (.ok (true, s')) => some (.ok (true, s'))
      | some (.ok (false, s')) => runSteps n s'

/-! Observation helpers (not part of the source): project a step result onto
one observable component, for stating concrete-run facts. -/

/-- Observation helper: the value of register `k` after a non-erroring,
non-panicking step result. -/
def regAfter (r : RRes (Bool × CPU)) (k : Nat) : Option Nat :=
  match r with
  | some (.ok (_, s)) => some (s.registers k)
  | _ => none

/-- Observation helper: the memory cell at `addr` after a step result. -/
def memAfter (r : RRes (Bool × CPU)) (addr : Nat) : Option Nat :=
  match r with
  | some (.ok (_, s)) => some (s.memory addr)
  | _ => none

/-- Observation helper: the output stream after a step result. -/
def outputAfter (r : RRes (Bool × CPU)) : Option (List Nat) :=
  match r with
  | some (.ok (_, s)) => some s.output
  | _ => none

/-- Observation helper: `some true` when the result is a halt, `some false`
when execution continues, `none` on error or panic. -/
def haltedAfter (r : RRes (Bool × CPU)) : Option Bool :=
  match r with
  | some (.ok (b, _)) => some b
  | _ => none

/-- Observation helper: whether the step result is a success. -/
def stepOk (r : RRes (Bool × CPU)) : Bool :=
  match r with
  | some (.ok _) => true
  | _ => false

/-! Concrete program images used in the theorems below. -/

/-- Program: `set r0 ← 65; out r0; halt`. -/
def outProgram : List Nat := [1, 0x8000, 65, 19, 0x8000, 0]

/-- The machine booted on `outProgram`. -/
def outCPU : CPU := newCPU (fun i => outProgram.getD i 0)

/-- Program: `set r1 ← 7; set r2 ← 3; mod r0, r1, r2; halt`. -/
def moduloProgram : List Nat :=
  [1, 0x8001, 7, 1, 0x8002, 3, 11, 0x8000, 0x8001, 0x8002, 0]

/-- The machine booted on `moduloProgram`. -/
def moduloCPU : CPU := newCPU (fun i => moduloProgram.getD i 0)

/-- Program image: `mod r0, r1, r2` with all registers zero. -/
def modImage : List Nat := [11, 0x8000, 0x8001, 0x8002]

/-- Program: `set 5 ← 7` — a `set` whose destination raw operand is the
literal 5. -/
def setLiteralProgram : List Nat := [1, 5, 7, 0]

/-- The machine booted on `setLiteralProgram`. -/
def setLiteralCPU : CPU := newCPU (fun i => setLiteralProgram.getD i 0)

/-- C1: the spec says opcode 19 (`out`) writes `resolve(a) mod 256`; the code
instead writes the low byte of the raw operand word.  After `set r0 ← 65`,
executing `out 0x8000` appends byte 0 (= 0x8000 mod 256) to the output even
though register 0 holds 65: the byte written is NOT `resolve(a) mod 256`. -/
theorem out_prints_raw_low_byte :
    regAfter (runSteps 2 outCPU) 0 = some 65 ∧
    outputAfter (runSteps 2 outCPU) = some [0] :=
  ⟨rfl, rfl⟩

/-- C2: the spec says opcode 11 (`mod`) stores `resolve(b) mod resolve(c)`;
the code never resolves `b` and `c`.  After `set r1 ← 7; set r2 ← 3`,
executing `mod r0, r1, r2` stores `32769 mod 32770 = 32769` (the raw operand
words) into register 0, not `7 mod 3 = 1`. -/
theorem modulo_uses_raw_operands :
    regAfter (runSteps 3 moduloCPU) 1 = some 7 ∧
    regAfter (runSteps 3 moduloCPU) 2 = some 3 ∧
    regAfter (runSteps 3 moduloCPU) 0 = some 32769 :=
  ⟨rfl, rfl, rfl⟩

/-- C4: loading the image `mod r0, r1, r2` (registers all zero) and taking
one successful step leaves register 0 holding 32769 ≥ 32768: the claimed
invariant that registers stay below 32768 fails, because `mod` stores an
unmasked remainder of the raw operand words. -/
theorem register_exceeds_range_after_modulo :
    (loadBinary modImage).map (fun s => regAfter (execute s) 0) = .ok (some 32769) ∧
    32768 ≤ 32769 :=
  ⟨rfl, by decide⟩

/-- C3 counterexample: a `set` whose destination raw operand is the literal 5
does NOT fail — the step succeeds and writes 7 into memory cell 5. -/
theorem set_literal_dest_succeeds :
    stepOk (execute setLiteralCPU) = true ∧
    memAfter (execute setLiteralCPU) 5 = some 7 :=
  ⟨rfl, rfl⟩

/-! Helper lemmas shared by the claim theorems. -/

/-- Unfolding `execute` once the opcode fetch is known to succeed. -/
theorem execute_eq (s : CPU) (op : Nat)
    (hop : getValueFromAddress s s.currentAddress = .ok op) :
    execute s = applyResult (dispatch s op
      (getValueFromAddress s (s.currentAddress + 1))
      (getValueFromAddress s (s.currentAddress + 2))
      (getValueFromAddress s (s.currentAddress + 3))) := by
  unfold execute
  rw [hop]

/-- Resolving a literal raw operand is the identity. -/
theorem fromRaw_literal (s : CPU) (x : Nat) (hx : x ≤ 0x7FFF) :
    fromRawToU16 s x = .ok x := by
  unfold fromRawToU16
  rw [if_pos hx]

/-- Resolving an out-of-range raw operand fails with `OverflowAddress`. -/
theorem fromRaw_overflow (s : CPU) (x : Nat) (hx : 0x8008 ≤ x) :
    fromRawToU16 s x = .error (.OverflowAddress x) := by
  unfold fromRawToU16
  rw [if_neg (by omega), if_neg (by omega)]

/-- Writing through an out-of-range destination address fails. -/
theorem setValueInAddress_overflow (s : CPU) (address value : Nat)
    (h : 0x8008 ≤ address) :
    setValueInAddress s address value = .error (.OverflowAddress address) := by
  unfold setValueInAddress
  rw [if_neg (by omega), if_neg (by omega)]

/-- Writing through a literal destination address writes the memory cell. -/
theorem setValueInAddress_mem (s : CPU) (address value : Nat)
    (h : address ≤ 0x7FFF) :
    setValueInAddress s address value =
      .ok (s.memory address,
           { s with memory := fun i => if i = address then value else s.memory i }) := by
  unfold setValueInAddress writeMemory
  rw [if_pos h, if_pos h]

/-- C7: `from_raw_to_u16` is the identity on literals `x < 0x8000` (never an
error), returns `registers[k]` on a register reference `0x8000 + k` with
`k < 8`, and fails with `OverflowAddress` on any raw `x ≥ 0x8008`. -/
theorem fromRawToU16_spec (s : CPU) (x k : Nat) :
    (x < 0x8000 → fromRawToU16 s x = .ok x) ∧
    (k < 8 → fromRawToU16 s (0x8000 + k) = .ok (s.registers k)) ∧
    (0x8008 ≤ x → fromRawToU16 s x = .error (.OverflowAddress x)) := by
  refine ⟨fun hx => ?_, fun hk => ?_, fun hx => ?_⟩
  · unfold fromRawToU16
    rw [if_pos (by omega)]
  · interval_cases k <;> rfl
  · unfold fromRawToU16
    rw [if_neg (by omega), if_neg (by omega)]

/-- Witness for C7 at concrete inputs. -/
theorem fromRawToU16_spec_witness :
    fromRawToU16 (newCPU defaultMemory) 123 = .ok 123 ∧
    fromRawToU16 (newCPU defaultMemory) (0x8000 + 2) =
      .ok ((newCPU defaultMemory).registers 2) ∧
    fromRawToU16 (newCPU defaultMemory) 40000 = .error (.OverflowAddress 40000) :=
  ⟨(fromRawToU16_spec (newCPU defaultMemory) 123 2).1 (by decide),
   (fromRawToU16_spec (newCPU defaultMemory) 123 2).2.1 (by decide),
   (fromRawToU16_spec (newCPU defaultMemory) 40000 2).2.2 (by decide)⟩

/-- C5: once the opcode word at PC is readable, fetch failures on trailing
operand words the opcode does not consume never abort the step: opcodes 0
(halt), 18 (ret) and 21 (noop) succeed for EVERY state (hence regardless of
what lies at PC+1..PC+3), and opcode 19 (out) succeeds whenever its single
operand fetch succeeds, regardless of the fetches at PC+2 and PC+3. -/
theorem unused_operand_fetches_are_lazy (s : CPU) (op : Nat)
    (hop : getValueFromAddress s s.currentAddress = .ok op) :
    ((op = 0 ∨ op = 18 ∨ op = 21) → stepOk (execute s) = true) ∧
    (op = 19 → ∀ rawA, getValueFromAddress s (s.currentAddress + 1) = .ok rawA →
      stepOk (execute s) = true) := by
  constructor
  · rintro (rfl | rfl | rfl) <;> rw [execute_eq s _ hop]
    · rfl
    · cases h : s.stack <;> simp [dispatch, ret, applyResult, stepOk, h]
    · rfl
  · rintro rfl rawA ha
    rw [execute_eq s _ hop]
    simp [dispatch, ha, Except.bind, out, applyResult, stepOk]

/-- A machine whose opcode at PC = 0x7FFF is `noop` (21). -/
def noopAtTopCPU : CPU :=
  { memory := fun i => if i = 0x7FFF then 21 else 0, registers := fun _ => 0,
    stack := [], currentAddress := 0x7FFF, output := [] }

/-- Witness for C5: `noop` at PC = 0x7FFF succeeds even though PC+1..PC+3
fall outside memory. -/
theorem unused_operand_fetches_are_lazy_witness :
    stepOk (execute noopAtTopCPU) = true :=
  (unused_operand_fetches_are_lazy noopAtTopCPU 21 rfl).1 (Or.inr (Or.inr rfl))

/-- C6: on an empty stack, opcode 18 (`ret`) is a normal halt (the step
succeeds and reports `Halted`, leaving the state unchanged), whereas opcode 3
(`pop`, with its operand fetch succeeding) fails with `PopFromEmptyStack`. -/
theorem ret_halts_pop_errors_on_empty_stack (s : CPU) (rawA : Nat)
    (hstack : s.stack = []) :
    (getValueFromAddress s s.currentAddress = .ok 18 →
      execute s = some (.ok (true, s))) ∧
    (getValueFromAddress s s.currentAddress = .ok 3 →
      getValueFromAddress s (s.currentAddress + 1) = .ok rawA →
      execute s = some (.error .PopFromEmptyStack)) := by
  constructor
  · intro hop
    rw [execute_eq s 18 hop]
    simp [dispatch, ret, hstack, applyResult]
  · intro hop ha
    rw [execute_eq s 3 hop]
    simp [dispatch, ha, Except.bind, pop, hstack, applyResult]

/-- A machine about to execute `ret` with an empty stack. -/
def retEmptyCPU : CPU := newCPU (fun i => if i = 0 then 18 else 0)

/-- A machine about to execute `pop r0` with an empty stack. -/
def popEmptyCPU : CPU := newCPU (fun i => [3, 0x8000].getD i 0)

/-- Witness for C6 at concrete machines. -/
theorem ret_halts_pop_errors_on_empty_stack_witness :
    execute retEmptyCPU = some (.ok (true, retEmptyCPU)) ∧
    execute popEmptyCPU = some (.error .PopFromEmptyStack) :=
  ⟨(ret_halts_pop_errors_on_empty_stack retEmptyCPU 0 rfl).1 rfl,
   (ret_halts_pop_errors_on_empty_stack popEmptyCPU 0x8000 rfl).2 rfl rfl⟩

/-- Masking a 16-bit wrapped value to 15 bits is reduction mod 32768. -/
theorem wrap_mask_eq_mod (x : Nat) :
    (x % 65536) &&& 0x7FFF = x % 32768 := by
  have h3 : (0x7FFF : Nat) = 2 ^ 15 - 1 := by norm_num
  have h1 : (65536 : Nat) = 2 ^ 16 := by norm_num
  have h2 : (32768 : Nat) = 2 ^ 15 := by norm_num
  rw [h3, Nat.and_pow_two_sub_one_eq_mod, h1, h2, Nat.mod_mod_of_dvd]
  exact pow_dvd_pow 2 (by norm_num)

/-- C8: a step executing opcode 9 (`add`) with resolvable sources and a
register-reference destination `0x8000 + k` succeeds and stores
`(resolve(b) + resolve(c)) mod 32768` into register `k`. -/
theorem add_stores_sum_mod_32768 (s : CPU) (rawA rawB rawC bv cv k : Nat)
    (hop : getValueFromAddress s s.currentAddress = .ok 9)
    (ha : getValueFromAddress s (s.currentAddress + 1) = .ok rawA)
    (hb : getValueFromAddress s (s.currentAddress + 2) = .ok rawB)
    (hc : getValueFromAddress s (s.currentAddress + 3) = .ok rawC)
    (hbv : fromRawToU16 s rawB = .ok bv)
    (hcv : fromRawToU16 s rawC = .ok cv)
    (hA : rawA = 0x8000 + k) (hk : k < 8) :
    haltedAfter (execute s) = some false ∧
    regAfter (execute s) k = some ((bv + cv) % 32768) := by
  subst hA
  rw [execute_eq s 9 hop] at *
  interval_cases k <;>
    simp [dispatch, ha, hb, hc, Except.bind, add, hbv, hcv, setValueInAddress,
      getRegistryFromAddress, writeRegister, applyResult, haltedAfter, regAfter,
      wrap_mask_eq_mod, MAX_REGISTERS]

/-- A machine about to execute `add r0, 32767, 1`. -/
def addWrapCPU : CPU := newCPU (fun i => [9, 0x8000, 32767, 1].getD i 0)

/-- Witness for C8: `add(32767, 1)` stores 0 in register 0. -/
theorem add_stores_sum_mod_32768_witness :
    haltedAfter (execute addWrapCPU) = some false ∧
    regAfter (execute addWrapCPU) 0 = some 0 :=
  ⟨(add_stores_sum_mod_32768 addWrapCPU 0x8000 32767 1 32767 1 0
      rfl rfl rfl rfl rfl rfl rfl (by decide)).1,
   ((add_stores_sum_mod_32768 addWrapCPU 0x8000 32767 1 32767 1 0
      rfl rfl rfl rfl rfl rfl rfl (by decide)).2).trans (by decide)⟩

/-- C9: opcodes 7 (`jt`) and 8 (`jf`) resolve BOTH operands before the branch
decision: with an out-of-range jump-target raw operand (≥ 0x8008) the step
fails with `OverflowAddress` even when the condition selects the fall-through
path (`resolve(a) = 0` for `jt`, `resolve(a) ≠ 0` for `jf`) and the target
would never be used. -/
theorem jt_jf_resolve_target_before_branch (s : CPU) (rawA rawB av : Nat)
    (ha : getValueFromAddress s (s.currentAddress + 1) = .ok rawA)
    (hb : getValueFromAddress s (s.currentAddress + 2) = .ok rawB)
    (hres : fromRawToU16 s rawA = .ok av)
    (hB : 0x8008 ≤ rawB) :
    (getValueFromAddress s s.currentAddress = .ok 7 → av = 0 →
      execute s = some (.error (.OverflowAddress rawB))) ∧
    (getValueFromAddress s s.currentAddress = .ok 8 → av ≠ 0 →
      execute s = some (.error (.OverflowAddress rawB))) := by
  constructor
  · intro hop hav
    rw [execute_eq s 7 hop]
    simp [dispatch, ha, hb, Except.bind, jt, hres, fromRaw_overflow s rawB hB,
      applyResult]
  · intro hop hav
    rw [execute_eq s 8 hop]
    simp [dispatch, ha, hb, Except.bind, jf, hres, fromRaw_overflow s rawB hB,
      applyResult]

/-- A successful `Except.bind` decomposes into a successful first component. -/
theorem except_bind_ok {ε α β : Type} (x : Except ε α) (f : α → Except ε β) (y : β)
    (h : x.bind f = .ok y) : ∃ a, x = .ok a ∧ f a = .ok y := by
  cases x with
  | error e => exact absurd h (by simp [Except.bind])
  | ok a => exact ⟨a, rfl, h⟩

/-- Everything but the cell addressed by `set_value_in_address` is preserved:
the stack, the output, the PC, every other memory cell and every register
not referenced by the destination address. -/
theorem setValueInAddress_frame (s : CPU) (address value old : Nat) (t : CPU)
    (h : setValueInAddress s address value = .ok (old, t)) :
    t.stack = s.stack ∧ t.output = s.output ∧
    (∀ j, j ≠ address → t.memory j = s.memory j) ∧
    (∀ k, 0x8000 + k ≠ address → t.registers k = s.registers k) := by
  by_cases h1 : address ≤ 0x7FFF
  · rw [setValueInAddress_mem s address value h1] at h
    injection h with h3
    injection h3 with h4 h5
    subst h5
    exact ⟨rfl, rfl, fun j hj => by simp [hj], fun k hk => rfl⟩
  · by_cases h2 : address ≤ 0x8007
    · have hr : getRegistryFromAddress address = some (address - 0x8000) := by
        unfold getRegistryFromAddress MAX_REGISTERS
        rw [if_pos (by omega)]
      unfold setValueInAddress at h
      rw [if_neg h1, if_pos h2] at h
      simp only [hr] at h
      unfold writeRegister at h
      rw [if_pos (by omega)] at h
      injection h with h3
      injection h3 with h4 h5
      subst h5
      refine ⟨rfl, rfl, fun j hj => rfl, fun k hk => ?_⟩
      simp only [CPU.mk.injEq]
      rw [if_neg (by omega)]
    · rw [setValueInAddress_overflow s address value (by omega)] at h
      exact absurd h (by simp)

/-- A non-halting successful step result of `applyResult` comes from a
successful handler result whose state agrees with the final state on every
field but the PC. -/
theorem applyResult_false_fields (r : RRes (ExecutionResult × CPU)) (s' : CPU)
    (h : applyResult r = some (.ok (false, s'))) :
    ∃ er t, r = some (.ok (er, t)) ∧ s'.stack = t.stack ∧ s'.output = t.output ∧
      s'.memory = t.memory ∧ s'.registers = t.registers := by
  match r, h with
  | some (.ok (.Jump a, t)), h =>
    simp only [applyResult, Option.some.injEq, Except.ok.injEq, Prod.mk.injEq,
      true_and] at h
    subst h
    exact ⟨.Jump a, t, rfl, rfl, rfl, rfl, rfl⟩
  | some (.ok (.Next n, t)), h =>
    simp only [applyResult, Option.some.injEq, Except.ok.injEq, Prod.mk.injEq,
      true_and] at h
    subst h
    exact ⟨.Next n, t, rfl, rfl, rfl, rfl, rfl⟩
  | some (.ok (.Stop, t)), h => exact absurd h (by simp [applyResult])
  | some (.error e), h => exact absurd h (by simp [applyResult])
  | none, h => exact absurd h (by simp [applyResult])

/-- The tail common to every storing handler — `set_value_in_address`
followed by `Ok(Next(n))` — preserves everything but the destination cell. -/
theorem storeTail_frame (s : CPU) (rawA v n : Nat) (er : ExecutionResult) (t : CPU)
    (h : ((setValueInAddress s rawA v).bind fun p =>
          (Except.ok (ExecutionResult.Next n, p.2) :
            Except CPUError (ExecutionResult × CPU))) = .ok (er, t)) :
    t.stack = s.stack ∧ t.output = s.output ∧
    (∀ j, j ≠ rawA → t.memory j = s.memory j) ∧
    (∀ k, 0x8000 + k ≠ rawA → t.registers k = s.registers k) := by
  obtain ⟨p, hp, h2⟩ := except_bind_ok _ _ _ h
  injection h2 with h3
  injection h3 with h4 h5
  subst h5
  exact setValueInAddress_frame s rawA v p.1 p.2 hp

/-- C10: a successful non-halting step of a pure-computation opcode (4 eq,
5 gt, 9 add, 10 mult, 11 mod, 12 and, 13 or, 14 not) changes at most the
single destination cell named by its raw destination operand (one memory
cell, or one register) and the PC: the stack, the output, every other memory
cell and every other register are unchanged. -/
theorem pure_ops_touch_only_dest_and_pc (s s' : CPU) (op rawA : Nat)
    (hop : getValueFromAddress s s.currentAddress = .ok op)
    (hin : op ∈ [4, 5, 9, 10, 11, 12, 13, 14])
    (ha : getValueFromAddress s (s.currentAddress + 1) = .ok rawA)
    (hrun : execute s = some (.ok (false, s'))) :
    s'.stack = s.stack ∧ s'.output = s.output ∧
    (∀ j, j ≠ rawA → s'.memory j = s.memory j) ∧
    (∀ k, 0x8000 + k ≠ rawA → s'.registers k = s.registers k) := by
  rw [execute_eq s op hop, ha] at hrun
  fin_cases hin
  · -- eq
    obtain ⟨er, t, hd, hst, hout, hmem, hreg⟩ := applyResult_false_fields _ _ hrun
    have hd1 := Option.some.inj hd
    obtain ⟨a1, ha1, hd2⟩ := except_bind_ok _ _ _ hd1
    obtain rfl := Except.ok.inj ha1
    obtain ⟨rb, hf2, hd3⟩ := except_bind_ok _ _ _ hd2
    obtain ⟨rc, hf3, hd4⟩ := except_bind_ok _ _ _ hd3
    simp only [eq] at hd4
    obtain ⟨bv, hbv, hd5⟩ := except_bind_ok _ _ _ hd4
    obtain ⟨cv, hcv, hd6⟩ := except_bind_ok _ _ _ hd5
    obtain ⟨fst, fout, fmem, freg⟩ := storeTail_frame _ _ _ _ _ _ hd6
    exact ⟨hst.trans fst, hout.trans fout,
      fun j hj => by rw [hmem]; exact fmem j hj,
      fun k hk => by rw [hreg]; exact freg k hk⟩
  · -- gt
    obtain ⟨er, t, hd, hst, hout, hmem, hreg⟩ := applyResult_false_fields _ _ hrun
    have hd1 := Option.some.inj hd
    obtain ⟨a1, ha1, hd2⟩ := except_bind_ok _ _ _ hd1
    obtain rfl := Except.ok.inj ha1
    obtain ⟨rb, hf2, hd3⟩ := except_bind_ok _ _ _ hd2
    obtain ⟨rc, hf3, hd4⟩ := except_bind_ok _ _ _ hd3
    simp only [gt] at hd4
    obtain ⟨bv, hbv, hd5⟩ := except_bind_ok _ _ _ hd4
    obtain ⟨cv, hcv, hd6⟩ := except_bind_ok _ _ _ hd5
    obtain ⟨fst, fout, fmem, freg⟩ := storeTail_frame _ _ _ _ _ _ hd6
    exact ⟨hst.trans fst, hout.trans fout,
      fun j hj => by rw [hmem]; exact fmem j hj,
      fun k hk => by rw [hreg]; exact freg k hk⟩
  · -- add
    obtain ⟨er, t, hd, hst, hout, hmem, hreg⟩ := applyResult_false_fields _ _ hrun
    have hd1 := Option.some.inj hd
    obtain ⟨a1, ha1, hd2⟩ := except_bind_ok _ _ _ hd1
    obtain rfl := Except.ok.inj ha1
    obtain ⟨rb, hf2, hd3⟩ := except_bind_ok _ _ _ hd2
    obtain ⟨rc, hf3, hd4⟩ := except_bind_ok _ _ _ hd3
    simp only [add] at hd4
    obtain ⟨bv, hbv, hd5⟩ := except_bind_ok _ _ _ hd4
    obtain ⟨cv, hcv, hd6⟩ := except_bind_ok _ _ _ hd5
    obtain ⟨fst, fout, fmem, freg⟩ := storeTail_frame _ _ _ _ _ _ hd6
    exact ⟨hst.trans fst, hout.trans fout,
      fun j hj => by rw [hmem]; exact fmem j hj,
      fun k hk => by rw [hreg]; exact freg k hk⟩
  · -- mult
    obtain ⟨er, t, hd, hst, hout, hmem, hreg⟩ := applyResult_false_fields _ _ hrun
    have hd1 := Option.some.inj hd
    obtain ⟨a1, ha1, hd2⟩ := except_bind_ok _ _ _ hd1
    obtain rfl := Except.ok.inj ha1
    obtain ⟨rb, hf2, hd3⟩ := except_bind_ok _ _ _ hd2
    obtain ⟨rc, hf3, hd4⟩ := except_bind_ok _ _ _ hd3
    simp only [mult] at hd4
    obtain ⟨bv, hbv, hd5⟩ := except_bind_ok _ _ _ hd4
    obtain ⟨cv, hcv, hd6⟩ := except_bind_ok _ _ _ hd5
    obtain ⟨fst, fout, fmem, freg⟩ := storeTail_frame _ _ _ _ _ _ hd6
    exact ⟨hst.trans fst, hout.trans fout,
      fun j hj => by rw [hmem]; exact fmem j hj,
      fun k hk => by rw [hreg]; exact freg k hk⟩
  · -- mod
    obtain ⟨er, t, hd, hst, hout, hmem, hreg⟩ := applyResult_false_fields _ _ hrun
    cases hf2 : getValueFromAddress s (s.currentAddress + 2) with
    | error e =>
      rw [hf2] at hd
      simp [dispatch] at hd
    | ok rb =>
      cases hf3 : getValueFromAddress s (s.currentAddress + 3) with
      | error e =>
        rw [hf2, hf3] at hd
        simp [dispatch] at hd
      | ok rc =>
        rw [hf2, hf3] at hd
        simp only [dispatch] at hd
        by_cases hc0 : rc = 0
        · unfold modulo at hd
          rw [if_pos hc0] at hd
          exact absurd hd (by simp)
        · unfold modulo at hd
          rw [if_neg hc0] at hd
          obtain ⟨fst, fout, fmem, freg⟩ :=
            storeTail_frame _ _ _ _ _ _ (Option.some.inj hd)
          exact ⟨hst.trans fst, hout.trans fout,
            fun j hj => by rw [hmem]; exact fmem j hj,
            fun k hk => by rw [hreg]; exact freg k hk⟩
  · -- and
    obtain ⟨er, t, hd, hst, hout, hmem, hreg⟩ := applyResult_false_fields _ _ hrun
    have hd1 := Option.some.inj hd
    obtain ⟨a1, ha1, hd2⟩ := except_bind_ok _ _ _ hd1
    obtain rfl := Except.ok.inj ha1
    obtain ⟨rb, hf2, hd3⟩ := except_bind_ok _ _ _ hd2
    obtain ⟨rc, hf3, hd4⟩ := except_bind_ok _ _ _ hd3
    simp only [and] at hd4
    obtain ⟨bv, hbv, hd5⟩ := except_bind_ok _ _ _ hd4
    obtain ⟨cv, hcv, hd6⟩ := except_bind_ok _ _ _ hd5
    obtain ⟨fst, fout, fmem, freg⟩ := storeTail_frame _ _ _ _ _ _ hd6
    exact ⟨hst.trans fst, hout.trans fout,
      fun j hj => by rw [hmem]; exact fmem j hj,
      fun k hk => by rw [hreg]; exact freg k hk⟩
  · -- or
    obtain ⟨er, t, hd, hst, hout, hmem, hreg⟩ := applyResult_false_fields _ _ hrun
    have hd1 := Option.some.inj hd
    obtain ⟨a1, ha1, hd2⟩ := except_bind_ok _ _ _ hd1
    obtain rfl := Except.ok.inj ha1
    obtain ⟨rb, hf2, hd3⟩ := except_bind_ok _ _ _ hd2
    obtain ⟨rc, hf3, hd4⟩ := except_bind_ok _ _ _ hd3
    simp only [or] at hd4
    obtain ⟨bv, hbv, hd5⟩ := except_bind_ok _ _ _ hd4
    obtain ⟨cv, hcv, hd6⟩ := except_bind_ok _ _ _ hd5
    obtain ⟨fst, fout, fmem, freg⟩ := storeTail_frame _ _ _ _ _ _ hd6
    exact ⟨hst.trans fst, hout.trans fout,
      fun j hj => by rw [hmem]; exact fmem j hj,
      fun k hk => by rw [hreg]; exact freg k hk⟩
  · -- not
    obtain ⟨er, t, hd, hst, hout, hmem, hreg⟩ := applyResult_false_fields _ _ hrun
    have hd1 := Option.some.inj hd
    obtain ⟨a1, ha1, hd2⟩ := except_bind_ok _ _ _ hd1
    obtain rfl := Except.ok.inj ha1
    obtain ⟨rb, hf2, hd3⟩ := except_bind_ok _ _ _ hd2
    simp only [not] at hd3
    obtain ⟨bv, hbv, hd4⟩ := except_bind_ok _ _ _ hd3
    obtain ⟨fst, fout, fmem, freg⟩ := storeTail_frame _ _ _ _ _ _ hd4
    exact ⟨hst.trans fst, hout.trans fout,
      fun j hj => by rw [hmem]; exact fmem j hj,
      fun k hk => by rw [hreg]; exact freg k hk⟩

/-- A machine about to execute `eq r0, 1, 1`. -/
def eqStepCPU : CPU := newCPU (fun i => [4, 0x8000, 1, 1].getD i 0)

/-- The state after executing `eq r0, 1, 1` on `eqStepCPU`. -/
def eqStepCPUAfter : CPU :=
  { memory := fun i => [4, 0x8000, 1, 1].getD i 0,
    registers := fun i => if i = 0 then 1 else 0,
    stack := [], currentAddress := 4, output := [] }

/-- Witness for C10 on a concrete `eq` step: stack, an unrelated memory cell
and an unrelated register are untouched. -/
theorem pure_ops_touch_only_dest_and_pc_witness :
    eqStepCPUAfter.stack = eqStepCPU.stack ∧
    eqStepCPUAfter.output = eqStepCPU.output ∧
    eqStepCPUAfter.memory 3 = eqStepCPU.memory 3 ∧
    eqStepCPUAfter.registers 5 = eqStepCPU.registers 5 :=
  ⟨(pure_ops_touch_only_dest_and_pc eqStepCPU eqStepCPUAfter 4 0x8000
      rfl (by decide) rfl rfl).1,
   (pure_ops_touch_only_dest_and_pc eqStepCPU eqStepCPUAfter 4 0x8000
      rfl (by decide) rfl rfl).2.1,
   (pure_ops_touch_only_dest_and_pc eqStepCPU eqStepCPUAfter 4 0x8000
      rfl (by decide) rfl rfl).2.2.1 3 (by decide),
   (pure_ops_touch_only_dest_and_pc eqStepCPU eqStepCPUAfter 4 0x8000
      rfl (by decide) rfl rfl).2.2.2 5 (by decide)⟩

/-- C3 (amended): for the arithmetic/logic opcodes (set, pop, eq, gt, add,
mult, mod, and, or, not, rmem) a destination raw operand in
`0x8008..=0xFFFF` fails the step with `OverflowAddress`; a literal
destination (`0x0000..=0x7FFF`) does NOT fail — it is treated as a memory
address and the result is written to that memory cell (shown for `set`). -/
theorem dest_literal_is_memory_write (s : CPU)
    (op rawA rawB rawC bv cv v mv : Nat) (rest : List Nat)
    (hop : getValueFromAddress s s.currentAddress = .ok op)
    (hin : op ∈ [1, 3, 4, 5, 9, 10, 11, 12, 13, 14, 15])
    (ha : getValueFromAddress s (s.currentAddress + 1) = .ok rawA)
    (hb : getValueFromAddress s (s.currentAddress + 2) = .ok rawB)
    (hc : getValueFromAddress s (s.currentAddress + 3) = .ok rawC)
    (hbv : fromRawToU16 s rawB = .ok bv)
    (hcv : fromRawToU16 s rawC = .ok cv)
    (hstack : s.stack = v :: rest)
    (hC0 : rawC ≠ 0)
    (hmv : getValueFromAddress s bv = .ok mv) :
    (0x8008 ≤ rawA → execute s = some (.error (.OverflowAddress rawA))) ∧
    (op = 1 → rawA ≤ 0x7FFF →
      haltedAfter (execute s) = some false ∧
      memAfter (execute s) rawA = some bv) := by
  constructor
  · intro hA
    rw [execute_eq s op hop]
    fin_cases hin <;>
      simp [dispatch, ha, hb, hc, Except.bind, set, pop, eq, gt, add, mult,
        modulo, and, or, not, rmem, hbv, hcv, hstack, hC0, hmv,
        setValueInAddress_overflow, hA, applyResult]
  · rintro rfl hA
    rw [execute_eq s 1 hop]
    simp [dispatch, ha, hb, Except.bind, set, hbv,
      setValueInAddress_mem s rawA bv hA, applyResult, haltedAfter, memAfter]

/-- A machine about to execute `eq 0x9000, 1, 1` — destination out of range. -/
def overflowDestCPU : CPU :=
  { memory := fun i => [4, 0x9000, 1, 1].getD i 0, registers := fun _ => 0,
    stack := [42], currentAddress := 0, output := [] }

/-- A machine about to execute `set 5, 7` — destination is the literal 5. -/
def literalDestCPU : CPU :=
  { memory := fun i => [1, 5, 7, 1].getD i 0, registers := fun _ => 0,
    stack := [42], currentAddress := 0, output := [] }

/-- Witness for the amended C3 at concrete machines. -/
theorem dest_literal_is_memory_write_witness :
    execute overflowDestCPU = some (.error (.OverflowAddress 0x9000)) ∧
    haltedAfter (execute literalDestCPU) = some false ∧
    memAfter (execute literalDestCPU) 5 = some 7 :=
  ⟨(dest_literal_is_memory_write overflowDestCPU 4 0x9000 1 1 1 1 42 36864 []
      rfl (by decide) rfl rfl rfl rfl rfl rfl (by decide) rfl).1 (by decide),
   ((dest_literal_is_memory_write literalDestCPU 1 5 7 1 7 1 42 0 []
      rfl (by decide) rfl rfl rfl rfl rfl rfl (by decide) rfl).2 rfl (by decide)).1,
   ((dest_literal_is_memory_write literalDestCPU 1 5 7 1 7 1 42 0 []
      rfl (by decide) rfl rfl rfl rfl rfl rfl (by decide) rfl).2 rfl (by decide)).2⟩

/-- A machine about to execute `jt 0, 0x9000` (condition false, bad target). -/
def jtBadTargetCPU : CPU := newCPU (fun i => [7, 0, 0x9000].getD i 0)

/-- A machine about to execute `jf 1, 0x9000` (condition false, bad target). -/
def jfBadTargetCPU : CPU := newCPU (fun i => [8, 1, 0x9000].getD i 0)

/-- Witness for C9 at concrete machines. -/
theorem jt_jf_resolve_target_before_branch_witness :
    execute jtBadTargetCPU = some (.error (.OverflowAddress 0x9000)) ∧
    execute jfBadTargetCPU = some (.error (.OverflowAddress 0x9000)) :=
  ⟨(jt_jf_resolve_target_before_branch jtBadTargetCPU 0 0x9000 0
      rfl rfl rfl (by decide)).1 rfl rfl,
   (jt_jf_resolve_target_before_branch jfBadTargetCPU 1 0x9000 1
      rfl rfl rfl (by decide)).2 rfl (by decide)⟩

end Synacor
